import Mathlib

/-!
Verification of the data2sql core: the type-inference engine
(infer_type, infer_schema) and the SQL statement generator
(generate_create_table, generate_insert_statements), embedded from
src/data2sql/core.py, together with is_valid_date from
src/data2sql/utils.py.

Python values are modelled by an inductive type Value; a Python dict in
insertion order is modelled as an association list.  The external
dateutil parse function is not part of this repository; every definition
that calls it takes the parser as an explicit boolean-valued parameter
pd, so all theorems hold for every parser.  Floats appear in the code
only through isinstance checks and str(), so a float is carried as its
textual representation.
-/

namespace Data2Sql

/-- The single-quote character, code point 39, kept abstract as a named
constant so escaping rules can be stated uniformly. -/
def squote : Char := Char.ofNat 39

/-- The single-quote character as a one-character string. -/
def squoteStr : String := String.singleton squote

/-- The newline character, code point 10. -/
def nlChar : Char := Char.ofNat 10

/-- A scalar value of an input record: null, boolean, integer, float
(carried as its textual representation), string, or any other host
value (carried as its textual form and its truthiness). -/
inductive Value where
  | vnull : Value
  | vbool (b : Bool) : Value
  | vint (n : Int) : Value
  | vfloat (txt : String) : Value
  | vstr (s : String) : Value
  | vother (s : String) (b : Bool) : Value
deriving DecidableEq

/-- One input row: a field-name-to-value mapping in insertion order. -/
abbrev Record := List (String × Value)

/-- A schema: a field-name-to-type-tag mapping in insertion order.  The
code represents type tags as plain strings such as TEXT or INTEGER. -/
abbrev Schema := List (String × String)

/-- Embedding of the Python builtin str applied to a record value. -/
def pyStr (v : Value) : String :=
  match v with
  | .vnull => "None"
  | .vbool true => "True"
  | .vbool false => "False"
  | .vint n => toString n
  | .vfloat txt => txt
  | .vstr s => s
  | .vother s _ => s

/-- Embedding of Python truthiness for record values: False, 0, 0.0 and
the empty string are falsy, everything else is truthy. -/
def truthy (v : Value) : Bool :=
  match v with
  | .vnull => false
  | .vbool b => b
  | .vint n => decide (n ≠ 0)
  | .vfloat txt => !(txt == "0.0" || txt == "-0.0")
  | .vstr s => !(s == "")
  | .vother _ b => b

/-- Embedding of core.infer_type.  The external date parser
(dateutil parse, raising on failure) is the parameter pd: pd s is true
exactly when the parser accepts s. -/
def infer_type (pd : String → Bool) (value : Value) : String :=
  match value with
  | .vnull => "TEXT"
  | .vbool _ => "BOOLEAN"
  | .vint _ => "INTEGER"
  | .vfloat _ => "REAL"
  | .vstr s => if pd s then "DATE" else "TEXT"
  | .vother _ _ => "TEXT"

/-- Embedding of the list comprehension in core.infer_schema: the values
of a field across the batch, keeping only rows where the field is
present with a non-null value, in batch order. -/
def collectValues (data : List Record) (key : String) : List Value :=
  data.filterMap (fun row =>
    match row.lookup key with
    | some v => if v = Value.vnull then none else some v
    | none => none)

/-- The loop body of core.infer_schema for one key: TEXT when the field
has no non-null value, else the type inferred from the first collected
value. -/
def inferField (pd : String → Bool) (data : List Record) (key : String) : String :=
  match collectValues data key with
  | [] => "TEXT"
  | v :: _ => infer_type pd v

/-- Embedding of core.infer_schema: empty input gives the empty schema;
otherwise iterate over the keys of the first record, assigning each the
type computed by the loop body. -/
def infer_schema (pd : String → Bool) (data : List Record) : Schema :=
  match data with
  | [] => []
  | first :: _ =>
    (first.map Prod.fst).map (fun key => (key, inferField pd data key))

/-- The first value of a field that is present and non-null, scanning
the batch in order; used to state the schema-inference contract. -/
def firstNonNull (data : List Record) (key : String) : Option Value :=
  match data with
  | [] => none
  | row :: rest =>
    match row.lookup key with
    | some v => if v = Value.vnull then firstNonNull rest key else some v
    | none => firstNonNull rest key

/-- Embedding of utils.is_valid_date: the string must be accepted by the
date parser and in addition be at least 8 characters long. -/
def is_valid_date (pd : String → Bool) (value : String) : Bool :=
  if pd value then decide (8 ≤ value.length) else false

/-- Embedding of the Python str.join method: interleave the separator
between the elements. -/
def pyJoin (sep : String) : List String → String
  | [] => ""
  | [x] => x
  | x :: y :: rest => x ++ sep ++ pyJoin sep (y :: rest)

/-- Embedding of the escaping step of core.generate_insert_statements:
str(val).replace on a one-character pattern doubles every single-quote
character. -/
def escapeQuotes (s : String) : String :=
  String.mk (s.data.flatMap (fun c => if c = squote then [squote, squote] else [c]))

/-- The per-value formatting switch of core.generate_insert_statements:
TEXT and DATE values are escaped and quoted, BOOLEAN values become 1 or
0 by truthiness, everything else is emitted as str(val). -/
def formatVal (t : String) (val : Value) : String :=
  if t == "TEXT" || t == "DATE" then
    squoteStr ++ escapeQuotes (pyStr val) ++ squoteStr
  else if t == "BOOLEAN" then
    (if truthy val then "1" else "0")
  else
    pyStr val

/-- The error raised when a record field is missing from the schema: in
the Python source the dict lookup schema[col] raises a KeyError, named
SchemaMismatch in the design taxonomy. -/
inductive SqlError where
  | schemaMismatch (col : String) : SqlError
deriving DecidableEq

/-- The inner loop of core.generate_insert_statements over one record:
skip null values, look up the type tag of each remaining field (a
missing field aborts with SchemaMismatch), and accumulate the column
names and formatted values in record order. -/
def buildRow (sch : Schema) : Record → Except SqlError (List String × List String)
  | [] => .ok ([], [])
  | (col, v) :: rest =>
    if v = Value.vnull then buildRow sch rest
    else
      match sch.lookup col with
      | none => .error (.schemaMismatch col)
      | some t =>
        match buildRow sch rest with
        | .error e => .error e
        | .ok (cs, vs) => .ok (col :: cs, formatVal t v :: vs)

/-- The statement built for one record by
core.generate_insert_statements. -/
def insertRow (table : String) (sch : Schema) (row : Record) : Except SqlError String :=
  match buildRow sch row with
  | .error e => .error e
  | .ok (cols, vals) =>
    .ok ("INSERT INTO " ++ table ++ " (" ++ pyJoin ", " cols ++ ") VALUES ("
          ++ pyJoin ", " vals ++ ")" ++ ";")

/-- Embedding of core.generate_insert_statements: one statement per
record in batch order; a lookup failure anywhere aborts the whole batch
with no output. -/
def generate_insert_statements (table : String) (data : List Record) (sch : Schema) :
    Except SqlError (List String) :=
  match data with
  | [] => .ok []
  | row :: rest =>
    match insertRow table sch row with
    | .error e => .error e
    | .ok s =>
      match generate_insert_statements table rest sch with
      | .error e => .error e
      | .ok ss => .ok (s :: ss)

/-- Embedding of core.generate_create_table: field-name/type pairs in
schema order, joined with comma-newline-indent, inside a CREATE TABLE
IF NOT EXISTS header. -/
def generate_create_table (table : String) (sch : Schema) : String :=
  let fields := sch.map (fun p => p.1 ++ " " ++ p.2)
  let field_list := pyJoin (",\n    ") fields
  "CREATE TABLE IF NOT EXISTS " ++ table ++ " (\n    " ++ field_list ++ "\n)" ++ ";"

/-! ## String helper lemmas -/

theorem str_data_append (a b : String) : (a ++ b).data = a.data ++ b.data := by
  cases a; cases b; rfl

theorem str_append_assoc (a b c : String) : a ++ b ++ c = a ++ (b ++ c) := by
  apply String.ext
  simp [str_data_append, List.append_assoc]

/-! ## Claim theorems -/

/-- C4: infer_type applies exactly this precedence: null maps to TEXT; a
boolean maps to BOOLEAN and is never classified INTEGER; an integer maps
to INTEGER; a floating-point value maps to REAL; a string maps to DATE
exactly when the date parser accepts it and to TEXT otherwise; every
other kind of value maps to TEXT. -/
theorem infer_type_precedence (pd : String → Bool) :
    infer_type pd Value.vnull = "TEXT" ∧
    (∀ b, infer_type pd (Value.vbool b) = "BOOLEAN" ∧
          infer_type pd (Value.vbool b) ≠ "INTEGER") ∧
    (∀ n : Int, infer_type pd (Value.vint n) = "INTEGER") ∧
    (∀ txt, infer_type pd (Value.vfloat txt) = "REAL") ∧
    (∀ s, (pd s = true → infer_type pd (Value.vstr s) = "DATE") ∧
          (pd s = false → infer_type pd (Value.vstr s) = "TEXT")) ∧
    (∀ s b, infer_type pd (Value.vother s b) = "TEXT") := by
  refine ⟨rfl, fun b => ⟨rfl, by simp [infer_type]⟩, fun n => rfl, fun txt => rfl,
    fun s => ⟨fun h => ?_, fun h => ?_⟩, fun s b => rfl⟩
  · simp [infer_type, h]
  · simp [infer_type, h]

/-- Witness for C4 at a concrete parser accepting exactly one date
string. -/
theorem infer_type_precedence_witness :
    infer_type (fun s => s == "2024-03-15") (Value.vstr "2024-03-15") = "DATE" ∧
    infer_type (fun s => s == "2024-03-15") (Value.vstr "hello") = "TEXT" := by
  have h1 := ((infer_type_precedence (fun s => s == "2024-03-15")).2.2.2.2.1 "2024-03-15").1
  have h2 := ((infer_type_precedence (fun s => s == "2024-03-15")).2.2.2.2.1 "hello").2
  exact ⟨h1 (by decide), h2 (by decide)⟩

/-- C10: infer_type classifies a string as DATE exactly when the date
parser accepts it, with no minimum-length requirement; a bare-year
string such as 2024 accepted by the parser is classified DATE even
though is_valid_date, which additionally requires length at least 8,
rejects it. -/
theorem date_no_min_length (pd : String → Bool) :
    (∀ s, infer_type pd (Value.vstr s) = "DATE" ↔ pd s = true) ∧
    (∀ s, is_valid_date pd s = (pd s && decide (8 ≤ s.length))) ∧
    (pd "2024" = true →
      infer_type pd (Value.vstr "2024") = "DATE" ∧
      is_valid_date pd "2024" = false) := by
  refine ⟨fun s => ?_, fun s => ?_, fun h => ⟨by simp [infer_type, h], ?_⟩⟩
  · cases h : pd s <;> simp [infer_type, h]
  · cases h : pd s <;> simp [is_valid_date, h]
  · simp [is_valid_date, h]
    decide

/-- Witness for C10 at a concrete parser accepting the bare year. -/
theorem date_no_min_length_witness :
    infer_type (fun s => s == "2024") (Value.vstr "2024") = "DATE" ∧
    is_valid_date (fun s => s == "2024") "2024" = false :=
  (date_no_min_length (fun s => s == "2024")).2.2 (by decide)

/-- C8: schema inference and statement generation are referentially
transparent: equal inputs give equal results, and in particular
generate_create_table is deterministic in (table, schema). -/
theorem generation_deterministic (pd : String → Bool) (t1 t2 : String)
    (s1 s2 : Schema) (d1 d2 : List Record)
    (ht : t1 = t2) (hs : s1 = s2) (hd : d1 = d2) :
    generate_create_table t1 s1 = generate_create_table t2 s2 ∧
    infer_schema pd d1 = infer_schema pd d2 ∧
    generate_insert_statements t1 d1 s1 = generate_insert_statements t2 d2 s2 := by
  subst ht; subst hs; subst hd
  exact ⟨rfl, rfl, rfl⟩

/-- Witness for C8 at concrete arguments. -/
theorem generation_deterministic_witness :
    generate_create_table "t" [("a", "TEXT")] = generate_create_table "t" [("a", "TEXT")] ∧
    infer_schema (fun _ => false) [[("a", Value.vint 1)]] =
      infer_schema (fun _ => false) [[("a", Value.vint 1)]] ∧
    generate_insert_statements "t" [[("a", Value.vint 1)]] [("a", "TEXT")] =
      generate_insert_statements "t" [[("a", Value.vint 1)]] [("a", "TEXT")] :=
  generation_deterministic (fun _ => false) "t" "t" [("a", "TEXT")] [("a", "TEXT")]
    [[("a", Value.vint 1)]] [[("a", Value.vint 1)]] rfl rfl rfl

/-- C1: within an INSERT, a non-null field value is formatted by the
type tag the schema assigns to the field: TEXT and DATE values are
quote-escaped and wrapped in single quotes, BOOLEAN values become 1 or 0
by truthiness, and any other tag (in particular INTEGER and REAL) emits
the textual form unquoted; the round-trip example doubles the quote in
the name and leaves 30 bare. -/
theorem insert_value_formatting (table col : String) (sch : Schema) (v : Value) (t : String)
    (hv : v ≠ Value.vnull) (ht : sch.lookup col = some t) :
    generate_insert_statements table [[(col, v)]] sch =
      .ok ["INSERT INTO " ++ table ++ " (" ++ col ++ ") VALUES ("
            ++ (if t = "TEXT" ∨ t = "DATE" then
                  squoteStr ++ escapeQuotes (pyStr v) ++ squoteStr
                else if t = "BOOLEAN" then (if truthy v then "1" else "0")
                else pyStr v)
            ++ ")" ++ ";"] ∧
    generate_insert_statements "people"
        [[("name", Value.vstr ("O" ++ squoteStr ++ "Brien")), ("age", Value.vint 30)]]
        [("name", "TEXT"), ("age", "INTEGER")] =
      .ok ["INSERT INTO people (name, age) VALUES (" ++ squoteStr ++ "O" ++ squoteStr
            ++ squoteStr ++ "Brien" ++ squoteStr ++ ", 30);"] := by
  constructor
  · have hfv : formatVal t v =
        (if t = "TEXT" ∨ t = "DATE" then squoteStr ++ escapeQuotes (pyStr v) ++ squoteStr
         else if t = "BOOLEAN" then (if truthy v then "1" else "0")
         else pyStr v) := by
      by_cases h1 : t = "TEXT"
      · simp [formatVal, h1]
      · by_cases h2 : t = "DATE"
        · simp [formatVal, h1, h2]
        · by_cases h3 : t = "BOOLEAN"
          · simp [formatVal, h1, h2, h3]
          · simp [formatVal, h1, h2, h3]
    simp [generate_insert_statements, insertRow, buildRow, hv, ht, pyJoin, hfv]
  · rfl

/-- Witness for C1 at a concrete TEXT field. -/
theorem insert_value_formatting_witness :
    generate_insert_statements "t" [[("a", Value.vstr "x")]] [("a", "TEXT")] =
      .ok ["INSERT INTO t (a) VALUES (" ++ squoteStr ++ "x" ++ squoteStr ++ ");"] := by
  have h := (insert_value_formatting "t" "a" [("a", "TEXT")] (Value.vstr "x") "TEXT"
      (by decide) (by rfl)).1
  rw [if_pos (Or.inl rfl)] at h
  exact h.trans (by rfl)

/-- C5: the inner row loop ignores null-valued fields entirely, so they
appear in neither the column list nor the value list, and the concrete
record with a null age yields an INSERT mentioning only name. -/
theorem null_fields_omitted :
    (∀ (sch : Schema) (row : Record),
        buildRow sch (row.filter (fun p => !(p.2 == Value.vnull))) = buildRow sch row) ∧
    generate_insert_statements "t" [[("name", Value.vstr "Ana"), ("age", Value.vnull)]]
        [("name", "TEXT"), ("age", "INTEGER")] =
      .ok ["INSERT INTO t (name) VALUES (" ++ squoteStr ++ "Ana" ++ squoteStr ++ ");"] := by
  constructor
  · intro sch row
    induction row with
    | nil => rfl
    | cons p rest ih =>
      obtain ⟨col, v⟩ := p
      by_cases h : v = Value.vnull
      · subst h
        simpa [buildRow] using ih
      · simp [buildRow, h, ← ih]
  · rfl

/-- A row whose values are all null contributes empty column and value
lists. -/
theorem buildRow_allNull (sch : Schema) (row : Record)
    (h : ∀ p ∈ row, p.2 = Value.vnull) : buildRow sch row = .ok ([], []) := by
  induction row with
  | nil => rfl
  | cons p rest ih =>
    have hp : p.2 = Value.vnull := h p (List.mem_cons_self p rest)
    obtain ⟨col, v⟩ := p
    simp only at hp
    subst hp
    simpa [buildRow] using ih (fun q hq => h q (List.mem_cons_of_mem _ hq))

/-- Shape of the degenerate statement built from empty column and value
lists. -/
theorem insert_empty_shape (table : String) :
    "INSERT INTO " ++ table ++ " (" ++ "" ++ ") VALUES (" ++ "" ++ ")" ++ ";" =
      "INSERT INTO " ++ table ++ " () VALUES ();" := by
  apply String.ext
  simp only [str_data_append, List.append_assoc]
  congr 2

/-- C9: a record all of whose values are null, or an empty record, is
neither skipped nor an error: it yields the degenerate statement with
empty column and value lists. -/
theorem all_null_record_degenerate (table : String) (sch : Schema) (row : Record)
    (h : ∀ p ∈ row, p.2 = Value.vnull) :
    generate_insert_statements table [row] sch =
      .ok ["INSERT INTO " ++ table ++ " () VALUES ();"] := by
  have hb := buildRow_allNull sch row h
  simp only [generate_insert_statements, insertRow, hb, pyJoin]
  rw [insert_empty_shape]

/-- Witness for C9 at a concrete all-null record. -/
theorem all_null_record_degenerate_witness :
    generate_insert_statements "t" [[("age", Value.vnull)]] [] =
      .ok ["INSERT INTO " ++ "t" ++ " () VALUES ();"] :=
  all_null_record_degenerate "t" [] [("age", Value.vnull)] (by decide)

/-- Looking up a key in a list that pairs every key with a function of
itself returns that function applied to the key. -/
theorem lookup_map_self (g : String → String) (keys : List String) (col : String)
    (h : col ∈ keys) :
    (keys.map (fun k => (k, g k))).lookup col = some (g col) := by
  induction keys with
  | nil => cases h
  | cons a rest ih =>
    by_cases hc : a = col
    · subst hc
      simp [List.lookup]
    · have hb : (col == a) = false := beq_eq_false_iff_ne.mpr (fun hh => hc hh.symm)
      have hm : col ∈ rest := by
        rcases List.mem_cons.mp h with heq | hm
        · exact absurd heq.symm hc
        · exact hm
      simp [List.lookup, hb, ih hm]

/-- The first non-null occurrence of a field is the head of the list of
collected non-null values. -/
theorem firstNonNull_eq_head (data : List Record) (key : String) :
    firstNonNull data key = (collectValues data key).head? := by
  induction data with
  | nil => rfl
  | cons row rest ih =>
    cases hl : row.lookup key with
    | none => simpa [firstNonNull, collectValues, List.filterMap_cons, hl] using ih
    | some v =>
      by_cases hv : v = Value.vnull
      · subst hv
        simpa [firstNonNull, collectValues, List.filterMap_cons, hl] using ih
      · simp [firstNonNull, collectValues, List.filterMap_cons, hl, hv]

/-- The per-field loop body assigns TEXT when the field has no non-null
value and otherwise the type inferred from the first non-null value. -/
theorem inferField_eq_firstNonNull (pd : String → Bool) (data : List Record) (key : String) :
    inferField pd data key =
      (match firstNonNull data key with
       | none => "TEXT"
       | some v => infer_type pd v) := by
  rw [firstNonNull_eq_head]
  cases h : collectValues data key <;> simp [inferField, h]

/-- C3: infer_schema of the empty batch is the empty schema; otherwise
its domain is exactly the keys of the first record in order, and each
key maps to TEXT when no record holds a non-null value for it and
otherwise to infer_type of the first non-null value in batch order. -/
theorem infer_schema_contract (pd : String → Bool) :
    infer_schema pd [] = [] ∧
    ∀ (first : Record) (rest : List Record),
      (infer_schema pd (first :: rest)).map Prod.fst = first.map Prod.fst ∧
      ∀ col, col ∈ first.map Prod.fst →
        (infer_schema pd (first :: rest)).lookup col =
          some (match firstNonNull (first :: rest) col with
                | none => "TEXT"
                | some v => infer_type pd v) := by
  refine ⟨rfl, fun first rest => ⟨?_, fun col h => ?_⟩⟩
  · simp [infer_schema, List.map_map, Function.comp_def]
  · rw [show infer_schema pd (first :: rest) =
        (first.map Prod.fst).map (fun key => (key, inferField pd (first :: rest) key)) from rfl,
      lookup_map_self _ _ _ h, inferField_eq_firstNonNull]

/-- Witness for C3: the first value of field a is null, so its type
comes from the second record. -/
theorem infer_schema_contract_witness :
    (infer_schema (fun _ => false) [[("a", Value.vnull)], [("a", Value.vint 3)]]).lookup "a" =
      some "INTEGER" := by
  have h := ((infer_schema_contract (fun _ => false)).2 [("a", Value.vnull)]
      [[("a", Value.vint 3)]]).2 "a" (by simp)
  rw [h]
  rfl

/-- A row containing a non-null field absent from the schema makes the
row loop fail with a SchemaMismatch error. -/
theorem buildRow_missing_field (sch : Schema) (row : Record) (col : String) (v : Value)
    (hmem : (col, v) ∈ row) (hv : v ≠ Value.vnull) (hl : sch.lookup col = none) :
    ∃ c, buildRow sch row = .error (.schemaMismatch c) := by
  induction row with
  | nil => cases hmem
  | cons p rest ih =>
    obtain ⟨c0, v0⟩ := p
    by_cases h0 : v0 = Value.vnull
    · subst h0
      have hm : (col, v) ∈ rest := by
        rcases List.mem_cons.mp hmem with heq | hm
        · exact absurd (congrArg Prod.snd heq) hv
        · exact hm
      obtain ⟨c, hc⟩ := ih hm
      exact ⟨c, by simpa [buildRow] using hc⟩
    · cases hl0 : sch.lookup c0 with
      | none => exact ⟨c0, by simp [buildRow, h0, hl0]⟩
      | some t =>
        have hm : (col, v) ∈ rest := by
          rcases List.mem_cons.mp hmem with heq | hm
          · exfalso
            injection heq with e1 e2
            subst e1
            rw [hl] at hl0
            cases hl0
          · exact hm
        obtain ⟨c, hc⟩ := ih hm
        refine ⟨c, ?_⟩
        simp [buildRow, h0, hl0, hc]

/-- A failing row anywhere in the batch makes the whole generator fail
with a SchemaMismatch error. -/
theorem generate_error_of_row (table : String) (data : List Record) (sch : Schema)
    (row : Record) (hrow : row ∈ data)
    (herr : ∃ c, buildRow sch row = .error (.schemaMismatch c)) :
    ∃ c, generate_insert_statements table data sch = .error (.schemaMismatch c) := by
  induction data with
  | nil => cases hrow
  | cons r rest ih =>
    rcases List.mem_cons.mp hrow with heq | hm
    · subst heq
      obtain ⟨c, hc⟩ := herr
      exact ⟨c, by simp [generate_insert_statements, insertRow, hc]⟩
    · cases hr : insertRow table sch r with
      | error e =>
        obtain ⟨c, hc⟩ : ∃ c, e = SqlError.schemaMismatch c := by
          cases e
          exact ⟨_, rfl⟩
        subst hc
        exact ⟨c, by simp [generate_insert_statements, hr]⟩
      | ok s =>
        obtain ⟨c, hc⟩ := ih hm
        exact ⟨c, by simp [generate_insert_statements, hr, hc]⟩

/-- C2: if some record of the batch contains a non-null field whose name
is absent from the schema, generate_insert_statements fails with a
SchemaMismatch error and emits no statements for the batch. -/
theorem missing_schema_field_aborts (table : String) (data : List Record) (sch : Schema)
    (row : Record) (col : String) (v : Value)
    (hrow : row ∈ data) (hmem : (col, v) ∈ row) (hv : v ≠ Value.vnull)
    (hl : sch.lookup col = none) :
    ∃ c, generate_insert_statements table data sch = .error (SqlError.schemaMismatch c) :=
  generate_error_of_row table data sch row hrow
    (buildRow_missing_field sch row col v hmem hv hl)

/-- Witness for C2: a record with field score under a schema lacking
score. -/
theorem missing_schema_field_aborts_witness :
    ∃ c, generate_insert_statements "t" [[("score", Value.vint 1)]] [] =
      .error (SqlError.schemaMismatch c) :=
  missing_schema_field_aborts "t" [[("score", Value.vint 1)]] [] [("score", Value.vint 1)]
    "score" (Value.vint 1) (by simp) (by simp) (by decide) (by rfl)

/-- C6: without schema mismatches the generator returns exactly one
INSERT per record in batch order (empty batch gives the empty list), and
within a row the columns are the non-null field names in the record's
own key order, with one value per column. -/
theorem insert_count_and_order :
    (∀ (table : String) (sch : Schema), generate_insert_statements table [] sch = .ok []) ∧
    (∀ (table : String) (sch : Schema) (data : List Record) (stmts : List String),
        generate_insert_statements table data sch = .ok stmts →
        stmts.length = data.length ∧
        ∀ (i : Nat) (h1 : i < data.length) (h2 : i < stmts.length),
          insertRow table sch (data.get ⟨i, h1⟩) = .ok (stmts.get ⟨i, h2⟩)) ∧
    (∀ (sch : Schema) (row : Record) (cols vals : List String),
        buildRow sch row = .ok (cols, vals) →
        cols = (row.filter (fun p => !(p.2 == Value.vnull))).map Prod.fst ∧
        vals.length = cols.length) := by
  refine ⟨fun table sch => rfl, fun table sch data => ?_, fun sch row => ?_⟩
  · induction data with
    | nil =>
      intro stmts h
      simp only [generate_insert_statements] at h
      injection h with h
      subst h
      exact ⟨rfl, fun i h1 h2 => absurd h1 (Nat.not_lt_zero i)⟩
    | cons r rest ih =>
      intro stmts h
      simp only [generate_insert_statements] at h
      cases hr : insertRow table sch r with
      | error e => rw [hr] at h; cases h
      | ok s =>
        rw [hr] at h
        cases hrest : generate_insert_statements table rest sch with
        | error e => rw [hrest] at h; cases h
        | ok ss =>
          rw [hrest] at h
          injection h with h
          subst h
          obtain ⟨hlen, hidx⟩ := ih ss hrest
          refine ⟨by simp [hlen], fun i h1 h2 => ?_⟩
          cases i with
          | zero => simpa using hr
          | succ n =>
            have h1n : n < rest.length := Nat.lt_of_succ_lt_succ h1
            have h2n : n < ss.length := Nat.lt_of_succ_lt_succ h2
            simpa using hidx n h1n h2n
  · induction row with
    | nil =>
      intro cols vals h
      simp only [buildRow] at h
      injection h with h
      cases h
      simp
    | cons p rest ih =>
      intro cols vals h
      obtain ⟨c0, v0⟩ := p
      by_cases h0 : v0 = Value.vnull
      · subst h0
        simp only [buildRow, if_pos rfl] at h
        obtain ⟨ih1, ih2⟩ := ih cols vals h
        refine ⟨?_, ih2⟩
        simpa [List.filter_cons] using ih1
      · simp only [buildRow, if_neg h0] at h
        cases hl : sch.lookup c0 with
        | none => rw [hl] at h; cases h
        | some t =>
          rw [hl] at h
          cases hb : buildRow sch rest with
          | error e => rw [hb] at h; cases h
          | ok pr =>
            obtain ⟨cs, vs⟩ := pr
            rw [hb] at h
            injection h with h
            cases h
            obtain ⟨ih1, ih2⟩ := ih cs vs hb
            have hkeep : (!(v0 == Value.vnull)) = true := by simp [h0]
            refine ⟨?_, by simp [ih2]⟩
            simp [List.filter_cons, hkeep, ih1]

/-- Witness for C6 at a one-record batch. -/
theorem insert_count_and_order_witness :
    (["INSERT INTO t (a) VALUES (1);"] : List String).length =
      ([[(("a" : String), Value.vint 1)]] : List Record).length ∧
    insertRow "t" [("a", "INTEGER")] [("a", Value.vint 1)] =
      .ok "INSERT INTO t (a) VALUES (1);" := by
  have h := insert_count_and_order.2.1 "t" [("a", "INTEGER")] [[("a", Value.vint 1)]]
    ["INSERT INTO t (a) VALUES (1);"] (by rfl)
  exact ⟨h.1, by simpa using h.2 0 (by decide) (by decide)⟩

/-- A string is single-line when it has no newline character. -/
def noNl (s : String) : Prop := nlChar ∉ s.data

instance (s : String) : Decidable (noNl s) := by
  unfold noNl
  infer_instance

/-- Appending newline-free strings is newline-free. -/
theorem noNl_append {a b : String} (ha : noNl a) (hb : noNl b) : noNl (a ++ b) := by
  unfold noNl at *
  rw [str_data_append]
  intro h
  rcases List.mem_append.mp h with h | h
  · exact ha h
  · exact hb h

/-- Every character of the escaped string is a character of the source
string or a single quote. -/
theorem escapeQuotes_chars {c : Char} {s : String} (h : c ∈ (escapeQuotes s).data) :
    c ∈ s.data ∨ c = squote := by
  have h2 : c ∈ s.data.flatMap (fun c => if c = squote then [squote, squote] else [c]) := h
  obtain ⟨a, ha, hc⟩ := List.mem_flatMap.mp h2
  by_cases hq : a = squote
  · rw [if_pos hq] at hc
    rcases List.mem_cons.mp hc with h | h
    · exact Or.inr h
    · exact Or.inr (List.mem_singleton.mp h)
  · rw [if_neg hq] at hc
    rw [List.mem_singleton.mp hc]
    exact Or.inl ha

/-- Escaping preserves freedom from newlines. -/
theorem noNl_escapeQuotes {s : String} (h : noNl s) : noNl (escapeQuotes s) := by
  intro hc
  rcases escapeQuotes_chars hc with hm | he
  · exact h hm
  · exact absurd he (by decide)

/-- Formatting a value whose textual form is newline-free gives a
newline-free SQL literal. -/
theorem noNl_formatVal {t : String} {v : Value} (h : noNl (pyStr v)) :
    noNl (formatVal t v) := by
  unfold formatVal
  split
  · exact noNl_append (noNl_append (by decide) (noNl_escapeQuotes h)) (by decide)
  · split
    · split <;> decide
    · exact h

/-- Joining newline-free strings with a newline-free separator is
newline-free. -/
theorem noNl_pyJoin {sep : String} (hsep : noNl sep) :
    ∀ {l : List String}, (∀ x ∈ l, noNl x) → noNl (pyJoin sep l)
  | [], _ => by
    intro h
    rw [show pyJoin sep [] = "" from rfl] at h
    exact absurd h (by decide)
  | [x], h => h x (List.mem_singleton.mpr rfl)
  | x :: y :: rest, h => by
    have hx : noNl x := h x (List.mem_cons_self _ _)
    have hrest : noNl (pyJoin sep (y :: rest)) :=
      noNl_pyJoin hsep (fun z hz => h z (List.mem_cons_of_mem _ hz))
    exact noNl_append (noNl_append hx hsep) hrest

/-- The row loop only accumulates column names of the row and formatted
values of the row, so both stay newline-free for a newline-free row. -/
theorem buildRow_noNl (sch : Schema) :
    ∀ (row : Record) (cols vals : List String),
      buildRow sch row = .ok (cols, vals) →
      (∀ p ∈ row, noNl p.1 ∧ noNl (pyStr p.2)) →
      (∀ c ∈ cols, noNl c) ∧ (∀ s ∈ vals, noNl s) := by
  intro row
  induction row with
  | nil =>
    intro cols vals h _
    simp only [buildRow] at h
    injection h with h
    cases h
    exact ⟨fun c hc => absurd hc (List.not_mem_nil c), fun s hs => absurd hs (List.not_mem_nil s)⟩
  | cons p rest ih =>
    intro cols vals h hrow
    obtain ⟨c0, v0⟩ := p
    have hhead := hrow (c0, v0) (List.mem_cons_self _ _)
    have htail : ∀ p ∈ rest, noNl p.1 ∧ noNl (pyStr p.2) :=
      fun q hq => hrow q (List.mem_cons_of_mem _ hq)
    by_cases h0 : v0 = Value.vnull
    · subst h0
      simp only [buildRow, if_pos rfl] at h
      exact ih cols vals h htail
    · simp only [buildRow, if_neg h0] at h
      cases hl : sch.lookup c0 with
      | none => rw [hl] at h; cases h
      | some t =>
        rw [hl] at h
        cases hb : buildRow sch rest with
        | error e => rw [hb] at h; cases h
        | ok pr =>
          obtain ⟨cs, vs⟩ := pr
          rw [hb] at h
          injection h with h
          cases h
          obtain ⟨ihc, ihv⟩ := ih cs vs hb htail
          refine ⟨fun c hc => ?_, fun s hs => ?_⟩
          · rcases List.mem_cons.mp hc with hc | hc
            · rw [hc]; exact hhead.1
            · exact ihc c hc
          · rcases List.mem_cons.mp hs with hs | hs
            · rw [hs]; exact noNl_formatVal hhead.2
            · exact ihv s hs

/-- The statement built for a row is the INSERT template filled with the
joined columns and values. -/
theorem insertRow_shape (table : String) (sch : Schema) (row : Record) (s : String)
    (h : insertRow table sch row = .ok s) :
    ∃ cols vals, buildRow sch row = .ok (cols, vals) ∧
      s = "INSERT INTO " ++ table ++ " (" ++ pyJoin ", " cols ++ ") VALUES ("
            ++ pyJoin ", " vals ++ ")" ++ ";" := by
  unfold insertRow at h
  cases hb : buildRow sch row with
  | error e => rw [hb] at h; cases h
  | ok pr =>
    obtain ⟨cols, vals⟩ := pr
    rw [hb] at h
    injection h with h
    exact ⟨cols, vals, rfl, h.symm⟩

/-- Every statement of a successful batch is the statement of some row
of the batch. -/
theorem generate_mem (table : String) (sch : Schema) :
    ∀ (data : List Record) (stmts : List String),
      generate_insert_statements table data sch = .ok stmts →
      ∀ s ∈ stmts, ∃ row ∈ data, insertRow table sch row = .ok s := by
  intro data
  induction data with
  | nil =>
    intro stmts h
    simp only [generate_insert_statements] at h
    injection h with h
    cases h
    intro s hs
    exact absurd hs (List.not_mem_nil s)
  | cons r rest ih =>
    intro stmts h
    simp only [generate_insert_statements] at h
    cases hr : insertRow table sch r with
    | error e => rw [hr] at h; cases h
    | ok s0 =>
      rw [hr] at h
      cases hrest : generate_insert_statements table rest sch with
      | error e => rw [hrest] at h; cases h
      | ok ss =>
        rw [hrest] at h
        injection h with h
        cases h
        intro s hs
        rcases List.mem_cons.mp hs with hs | hs
        · exact ⟨r, List.mem_cons_self _ _, by rw [hs]; exact hr⟩
        · obtain ⟨row, hrow, hok⟩ := ih ss hrest s hs
          exact ⟨row, List.mem_cons_of_mem _ hrow, hok⟩

/-- C7 counterexample: at a concrete one-field schema the CREATE string
contains newline characters, refuting the newline-free part of the
claim. -/
theorem create_table_contains_newline :
    generate_create_table "t" [("name", "TEXT")] =
      "CREATE TABLE IF NOT EXISTS t (\n    name TEXT\n);" ∧
    nlChar ∈ (generate_create_table "t" [("name", "TEXT")]).data := by
  exact ⟨rfl, by decide⟩

/-- C7 amended: every generated statement is terminated by a semicolon
and the CREATE statement starts with CREATE TABLE IF NOT EXISTS, but
only the INSERT statements are newline-free (given newline-free table
name, field names and value texts); the CREATE statement always
contains newline characters. -/
theorem statements_terminated_amended :
    (∀ (table : String) (sch : Schema), ∃ p, generate_create_table table sch = p ++ ";") ∧
    (∀ (table : String) (sch : Schema),
        ∃ q, generate_create_table table sch = "CREATE TABLE IF NOT EXISTS " ++ q) ∧
    (∀ (table : String) (sch : Schema), nlChar ∈ (generate_create_table table sch).data) ∧
    (∀ (table : String) (sch : Schema) (data : List Record) (stmts : List String),
        generate_insert_statements table data sch = .ok stmts →
        ∀ s ∈ stmts, ∃ p, s = p ++ ";") ∧
    (∀ (table : String) (sch : Schema) (data : List Record) (stmts : List String),
        noNl table →
        (∀ row ∈ data, ∀ p ∈ row, noNl p.1 ∧ noNl (pyStr p.2)) →
        generate_insert_statements table data sch = .ok stmts →
        ∀ s ∈ stmts, noNl s) := by
  refine ⟨fun table sch => ⟨_, rfl⟩, fun table sch => ?_, fun table sch => ?_,
    fun table sch data stmts h s hs => ?_, fun table sch data stmts htable hdata h s hs => ?_⟩
  · refine ⟨table ++ (" (\n    "
      ++ (pyJoin ",\n    " (sch.map (fun p => p.1 ++ " " ++ p.2)) ++ ("\n)" ++ ";"))), ?_⟩
    simp [generate_create_table, str_append_assoc]
  · show nlChar ∈ ((("CREATE TABLE IF NOT EXISTS " ++ table ++ " (\n    "
      ++ pyJoin ",\n    " (sch.map (fun p => p.1 ++ " " ++ p.2))) ++ "\n)") ++ ";").data
    rw [str_data_append]
    apply List.mem_append_left
    rw [str_data_append]
    apply List.mem_append_right
    decide
  · obtain ⟨row, _, hok⟩ := generate_mem table sch data stmts h s hs
    obtain ⟨cols, vals, _, hshape⟩ := insertRow_shape table sch row s hok
    exact ⟨_, hshape⟩
  · obtain ⟨row, hrow, hok⟩ := generate_mem table sch data stmts h s hs
    obtain ⟨cols, vals, hb, hshape⟩ := insertRow_shape table sch row s hok
    obtain ⟨hc, hv⟩ := buildRow_noNl sch row cols vals hb (hdata row hrow)
    rw [hshape]
    have hcols := noNl_pyJoin (show noNl ", " from by decide) hc
    have hvals := noNl_pyJoin (show noNl ", " from by decide) hv
    exact noNl_append (noNl_append (noNl_append (noNl_append (noNl_append (noNl_append
      (noNl_append (by decide) htable) (by decide)) hcols) (by decide)) hvals) (by decide))
      (by decide)

/-- Witness for the amended C7 at a concrete batch. -/
theorem statements_terminated_amended_witness :
    noNl "INSERT INTO t (a) VALUES (1);" := by
  have h := statements_terminated_amended.2.2.2.2 "t" [("a", "INTEGER")]
    [[("a", Value.vint 1)]] ["INSERT INTO t (a) VALUES (1);"]
    (by decide) (by decide) (by rfl)
  exact h "INSERT INTO t (a) VALUES (1);" (List.mem_singleton.mpr rfl)

end Data2Sql
